import Mathlib

/-!
Verification of the binjitsu ROP-chain synthesis core against its
natural-language specification.

The development shallowly embeds the relevant parts of
`pwnlib/rop/rop.py` and `pwnlib/rop/srop.py`:

* pure helper functions of the source become Lean functions,
* Python machine integers become `Nat`/`Int` (the source works with
  unbounded Python ints, packing applies `mod 2^(8*w)` explicitly),
* code paths that raise a hard error (`log.error` raises an exception in
  pwnlib) become `Except String _` results; an `Except.error` result
  models the exception propagating before any further mutation, so the
  caller's state is unchanged exactly when the source raises before its
  first mutation,
* the mutable `ROP` object becomes explicit state passing over `RopState`.

Parts of the repository that the claims depend on but whose code is not
available here (the `pwnlib.util.cyclic` / `pwnlib.util.lists` /
`pwnlib.util.packing` helpers, the `pwnlib.abi` and `pwnlib.constants`
tables, and the amoco-based `GadgetClassifier`/`GadgetSolver`) are
modelled from the specification; each such definition carries a doc
comment starting with `Modelled from the spec:`.
-/

namespace Binjitsu

/-! ## Word packing (pwnlib.util.packing, modelled from the spec) -/
/-- Modelled from the spec: `pwnlib.util.packing.flat`/`pack` are not in
the provided sources.  The spec states frame serialization is
"word-packed" at the architecture's word size; `leBytes w v` is the
little-endian `w`-byte encoding of `v mod 256^w`. -/
def leBytes : Nat → Nat → List Nat
  | 0, _ => []
  | w + 1, v => (v % 256) :: leBytes w (v / 256)

/-! ## Sigreturn frames (pwnlib/rop/srop.py) -/
/-- The architectures for which `srop.registers` defines a frame layout. -/
inductive Arch where
  | i386
  | amd64
  | arm
deriving DecidableEq, Repr

/-- Word size in bytes (`context.bytes`) per architecture. -/
def wordBytes : Arch → Nat
  | .i386 => 4
  | .amd64 => 8
  | .arm => 4

/-- The `context` component of `srop.registers`: the fixed ordered list of
frame registers per architecture (srop.py lines 16-36). -/
def registersOf : Arch → List String
  | .i386 =>
      ["gs", "fs", "es", "ds", "edi", "esi", "ebp", "esp", "ebx",
       "edx", "ecx", "eax", "trapno", "err", "eip", "cs", "eflags",
       "esp_at_signal", "ss", "fpstate"]
  | .amd64 =>
      ["uc_flags", "&uc", "uc_stack.ss_sp", "uc_stack.ss_flags", "uc_stack.ss_size",
       "r8", "r9", "r10", "r11", "r12", "r13", "r14", "r15", "rdi", "rsi", "rbp",
       "rbx", "rdx", "rax", "rcx", "rsp", "rip", "eflags", "csgsfs", "err", "trapno",
       "oldmask", "cr2", "&fpstate", "__reserved", "sigmask"]
  | .arm =>
      ["uc_flags", "uc_link", "uc_stack.ss_sp", "uc_stack.ss_flags", "uc_stack.ss_size",
       "trap_no", "error_code", "oldmask", "r0", "r1", "r2", "r3", "r4", "r5", "r6", "r7",
       "r8", "r9", "r10", "fp", "ip", "sp", "lr", "pc", "cpsr", "fault_address", "uc_sigmask",
       "__unused", "uc_regspace"]

/-- The `srop.defaults` table: architecture-mandated constant registers. -/
def defaultsOf : Arch → List (String × Nat)
  | .i386 => [("cs", 0x73), ("ss", 0x7b)]
  | .amd64 => [("csgsfs", 0x33)]
  | .arm => [("trap_no", 0x6), ("cpsr", 0x40000010)]

/-- A sigreturn frame's register mapping, viewed as a total function from
register name to integer value.  `SigreturnFrame.__init__` only ever
creates keys from `registersOf` and `defaultsOf`, and serialization only
reads keys of `registersOf`, so a total function is a faithful view. -/
def Frame := String → Nat

/-- The frame produced by `SigreturnFrame.__init__`: every frame register
zero, then the architecture defaults applied. -/
def initNumFrame (arch : Arch) : Frame :=
  fun r => ((defaultsOf arch).lookup r).getD 0

/-- Pointwise update of a frame mapping, the effect of a successful
`dict.__setitem__`. -/
def frameUpdate (f : Frame) (item : String) (v : Nat) : Frame :=
  fun r => if r = item then v else f r

/-- Embeds `SigreturnFrame.__setitem__` (srop.py lines 117-122): an
unknown register name is a hard error, an ARM stack-pointer value with
any of its three low bits set is a hard error, otherwise the entry is
written.  The two `log.error` calls raise before the write, so the error
cases return no frame. -/
def setitem (arch : Arch) (f : Frame) (item : String) (v : Nat) :
    Except String Frame :=
  if item ∉ registersOf arch then
    .error ("Unknown register " ++ item)
  else if arch = Arch.arm ∧ item = "sp" ∧ v &&& 0x7 ≠ 0 then
    .error "ARM SP should be 8-bit aligned"
  else
    .ok (frameUpdate f item v)

/-- Embeds `SigreturnFrame.__str__` (srop.py lines 133-135): the
serialization is the concatenation of each frame register's value, in the
architecture's fixed order, packed at the architecture's word size. -/
def serializeFrame (arch : Arch) (f : Frame) : List Nat :=
  ((registersOf arch).map (fun r => leBytes (wordBytes arch) (f r))).flatten

/-! ## Gadgets and gadget search (pwnlib/rop/rop.py) -/
/-- The gadget record built by `ROP.__load` (rop.py line 844):
`Gadget(addr, insns, regs, sp_move)` — address, instruction list, popped
registers, and net stack-pointer displacement in bytes. -/
structure Gadget where
  address : Nat
  insns : List String
  regs : List String
  move : Nat
deriving DecidableEq, Repr

/-- The very large stack-move value `__load` assigns to gadgets containing
a `leave` instruction (rop.py line 839), meant to keep them out of
generic stack-advance searches. -/
def SENTINEL : Nat := 9999999999

/-- Embeds the generator `ROP.search_iter` (rop.py lines 858-870): the
gadgets that move the stack pointer by at least `move` bytes and pop at
least the registers `regs`. -/
def searchMatches (gadgets : List Gadget) (move : Nat) (regs : List String) :
    List Gadget :=
  gadgets.filter (fun g => decide (move ≤ g.move) && regs.all (fun r => decide (r ∈ g.regs)))

/-- The two orderings accepted by `ROP.search`. -/
inductive SearchOrder where
  | size
  | regs
deriving DecidableEq, Repr

/-- The comparison keys of `ROP.search` (rop.py lines 898-901). -/
def searchKey : SearchOrder → Gadget → Nat × Nat × Nat
  | .size, g => (g.move, g.regs.length, g.address)
  | .regs, g => (g.regs.length, g.move, g.address)

/-- Strict lexicographic order on search keys, the order induced by
Python tuple comparison. -/
def keyLt (a b : Nat × Nat × Nat) : Prop :=
  a.1 < b.1 ∨ (a.1 = b.1 ∧ (a.2.1 < b.2.1 ∨ (a.2.1 = b.2.1 ∧ a.2.2 < b.2.2)))

instance (a b : Nat × Nat × Nat) : Decidable (keyLt a b) := by
  unfold keyLt; infer_instance

/-- Python's `min(iterable, key=key)`: the first element whose key is
minimal.  The fold replaces the accumulator only on a strictly smaller
key, so ties keep the earlier element, as `min` does. -/
def minBy (key : Gadget → Nat × Nat × Nat) : List Gadget → Option Gadget
  | [] => none
  | g :: gs =>
      some (gs.foldl (fun acc x => if keyLt (key x) (key acc) then x else acc) g)

/-- Embeds `ROP.search` (rop.py lines 872-906): the match with minimal
key under the requested ordering, or `none` when nothing matches. -/
def search (gadgets : List Gadget) (move : Nat) (regs : List String)
    (order : SearchOrder) : Option Gadget :=
  minBy (searchKey order) (searchMatches gadgets move regs)

/-- A gadget set whose only member is a leave-derived gadget, as `__load`
would record for a binary whose only usable gadget is `leave; ret`
(move = 9999999999 + 4, regs = the frame registers). -/
def leaveOnlyG : Gadget := ⟨0x300, ["leave", "ret"], ["ebp", "esp"], 10000000003⟩

/-- A one-register pop gadget with an ordinary move. -/
def popEaxG : Gadget := ⟨0x400, ["pop eax", "ret"], ["eax"], 8⟩

/-! ## Topological sort (ROP.__build_top_sort, rop.py lines 1001-1071)

The source operates on a Python dict mapping node to successor set; we
embed dicts as association lists in insertion order, which makes the
modelled iteration order explicit (Python 2 dict order is arbitrary but
fixed; on the concrete graphs used below the result is the same for every
iteration order).  The recorded `_global_delete_gadget` side table does
not influence the return value and is omitted.  Recursion is fuelled; the
outer result distinguishes fuel exhaustion (`none`) from the source
function completing and falling off the end of the final loop, which in
Python returns `None` (`some none`). -/
/-- A gadget graph as fed to `__build_top_sort`; nodes are keyed by name. -/
def TopGraph := List (String × List String)

instance : DecidableEq TopGraph := by
  unfold TopGraph; infer_instance

/-- Association-list update used to model `dict[k] = f(dict[k])`. -/
def setVal (l : List (String × Nat)) (k : String) (f : Nat → Nat) :
    List (String × Nat) :=
  l.map (fun p => if p.1 = k then (p.1, f p.2) else p)

/-- Add a key with value 0 if absent (`indegree[l] = 0` on a fresh key;
re-setting an existing key to 0 is a no-op because every value is 0 in
this phase). -/
def addKey0 (l : List (String × Nat)) (k : String) : List (String × Nat) :=
  if (l.lookup k).isSome then l else l ++ [(k, 0)]

/-- First phase of `__build_top_sort`: `indegree` keyed by every node of
the graph, all values 0. -/
def initIndegree (graph : TopGraph) : List (String × Nat) :=
  graph.foldl (fun acc kv => (kv.2.foldl addKey0 (addKey0 acc kv.1))) []

/-- Second phase: count each node's in-degree. -/
def countIndegree (graph : TopGraph) (ind : List (String × Nat)) :
    List (String × Nat) :=
  graph.foldl (fun acc kv => kv.2.foldl (fun a m => setVal a m (· + 1)) acc) ind

/-- Remove a key from the graph (`del graph[n]`). -/
def removeKey (graph : TopGraph) (n : String) : TopGraph :=
  graph.filter (fun p => decide (p.1 ≠ n))

/-- The `while len(indegree_zero) > 0` loop: pop the most recent
zero-in-degree node (LIFO), emit it, decrement its successors, push the
ones that become zero, and delete the node from the graph. -/
def topWhile (fuel : Nat) (zeros : List String) (graph : TopGraph)
    (ind : List (String × Nat)) (top : List String) :
    Option (List String × TopGraph × List (String × Nat)) :=
  match fuel with
  | 0 => none
  | fuel + 1 =>
      match zeros.getLast? with
      | none => some (top, graph, ind)
      | some n =>
          let zs := zeros.dropLast
          let top' := top ++ [n]
          match graph.lookup n with
          | none => topWhile fuel zs graph ind top'
          | some ms =>
              let step := ms.foldl
                (fun (st : List (String × Nat) × List String) m =>
                  let ind' := setVal st.1 m (· - 1)
                  if ind'.lookup m = some 0 then (ind', st.2 ++ [m]) else (ind', st.2))
                (ind, [])
              topWhile fuel (zs ++ step.2) (removeKey graph n) step.1 top'

/-- The cycle-breaking scan after the while loop: the first node (in
`indegree` iteration order) whose recorded in-degree exceeds 1 and that
is the target of some surviving edge, together with that edge's source. -/
def findBreak (ind : List (String × Nat)) (graph : TopGraph) :
    Option (String × String) :=
  match ind with
  | [] => none
  | (g, d) :: rest =>
      if d > 1 then
        match graph.find? (fun kv => kv.2.contains g) with
        | some kv => some (kv.1, g)
        | none => findBreak rest graph
      else findBreak rest graph

/-- Delete the edge `k → h` (`graph[k].remove(h)`). -/
def removeEdge (graph : TopGraph) (k h : String) : TopGraph :=
  graph.map (fun p => if p.1 = k then (p.1, p.2.erase h) else p)

/-- Total number of edges, used only to pick a sufficient fuel. -/
def totalEdges (graph : TopGraph) : Nat :=
  (graph.map (fun p => p.2.length)).sum

/-- Embeds `ROP.__build_top_sort` (rop.py lines 1001-1071) with explicit
fuel.  Result `none` means fuel ran out; `some none` means the source
function fell through its final loop and returned Python `None`;
`some (some l)` means it returned the list `l`. -/
def buildTopSortAux : Nat → TopGraph → Option (Option (List String))
  | 0, _ => none
  | fuel + 1, graph =>
      let ind0 := countIndegree graph (initIndegree graph)
      let zeros := (ind0.filter (fun p => p.2 = 0)).map Prod.fst
      match topWhile (2 * ind0.length + 1) zeros graph ind0 [] with
      | none => none
      | some (top, graph', ind') =>
          if graph' = [] then some (some top)
          else
            match findBreak ind' graph' with
            | none => some none
            | some (k, h) =>
                match buildTopSortAux fuel (removeEdge graph' k h) with
                | none => none
                | some r => some (some (top ++ r.getD []))

/-- Entry point with fuel sufficient for every edge deletion the
recursion can perform. -/
def build_top_sort (graph : TopGraph) : Option (Option (List String)) :=
  buildTopSortAux (totalEdges graph + 1) graph

/-- The example graph from the docstring of `__build_top_sort` itself:
graph = {'eax': ['ebx'], 'ebx': ['eax'], 'edx': ['eax']}, documented to
return ["edx", "eax", "ebx"]. -/
def topSortDocExample : TopGraph :=
  [("eax", ["ebx"]), ("ebx", ["eax"]), ("edx", ["eax"])]

/-! ## Padding and byte blobs -/
/-- Modelled from the spec: `pwnlib.util.cyclic.cyclic` is not among the
provided sources.  The spec requires only a "cyclic, position-identifying
filler (never zero)"; byte `i` is modelled as `97 + i % 26`.  The claims
depend only on the length (`cyclicBytes n` has `n` bytes) and
non-zeroness. -/
def cyclicBytes (n : Nat) : List Nat :=
  (List.range n).map (fun i => 97 + i % 26)

/-- Python's negative-index slice `s[-count:]`.  For `count = 0` the
slice is `s[0:]`, the whole string — the behaviour `generatePadding`
inherits. -/
def pySliceLast (s : List Nat) (count : Nat) : List Nat :=
  if count = 0 then s else s.drop (s.length - count)

/-- Embeds `ROP.generatePadding` (rop.py lines 389-393):
`cyclic(offset + count)[-count:]`. -/
def generatePadding (offset count : Nat) : List Nat :=
  pySliceLast (cyclicBytes (offset + count)) count

/-- Fuelled worker for `chunksOf`; the fuel is the list length, enough
because every step consumes at least one element when `w > 0`. -/
def chunksGo (w : Nat) : Nat → List Nat → List (List Nat)
  | _, [] => []
  | 0, l => [l]
  | fuel + 1, l => if w = 0 then [l] else l.take w :: chunksGo w fuel (l.drop w)

/-- Modelled from the spec: `pwnlib.util.lists.group(n, lst)` splits a
sequence into chunks of `n`, keeping a short final chunk. -/
def chunksOf (w : Nat) (l : List Nat) : List (List Nat) :=
  chunksGo w l.length l

/-! ## Chain elements and the two-pass builder (ROP.build) -/
/-- A frame value at chain-build time: `_srop_call` stores the raw
syscall-gadget object into the frame's instruction-pointer slot, so a
value is either an integer or a gadget reference. -/
inductive FrameVal where
  | int (n : Int)
  | gad (g : Gadget)
deriving DecidableEq, Repr

/-- A SigreturnFrame as carried inside the chain: the architecture and
the register mapping (keyed by the frame register list). -/
structure SFrame where
  arch : Arch
  vals : List (String × FrameVal)
deriving DecidableEq, Repr

/-- The frame built by `SigreturnFrame.__init__`: all registers zero,
then the architecture defaults. -/
def initFrame (arch : Arch) : SFrame :=
  ⟨arch, (registersOf arch).map
    (fun r => (r, FrameVal.int (((defaultsOf arch).lookup r).getD 0 : Nat)))⟩

/-- The ARM stack-pointer alignment test `value & 0x7` on a build-time
frame value; for the integer values reachable on the modelled call paths
this equals `n % 8 ≠ 0`, and a gadget-valued write never targets `sp`. -/
def frameValMisaligned : FrameVal → Bool
  | .int n => decide (n % 8 ≠ 0)
  | .gad _ => false

/-- Build-time view of `SigreturnFrame.__setitem__`, with the same two
error checks as `setitem`. -/
def setitemF (f : SFrame) (item : String) (v : FrameVal) : Except String SFrame :=
  if item ∉ registersOf f.arch then
    .error ("Unknown register " ++ item)
  else if f.arch = Arch.arm ∧ item = "sp" ∧ frameValMisaligned v = true then
    .error "ARM SP should be 8-bit aligned"
  else
    .ok ⟨f.arch, f.vals.map (fun p => if p.1 = item then (p.1, v) else p)⟩

/-- Frame read used by the builder's frame branch (`slot[register]`). -/
def frameLookup (f : SFrame) (r : String) : FrameVal :=
  (f.vals.lookup r).getD (.int 0)

/-- The ABI data a `Call` element carries: `register_arguments` and
`returns` are the only fields `build` reads. -/
structure ABIInfo where
  register_arguments : List String
  returns : Bool
deriving DecidableEq, Repr

/-- An argument of a `Call` chain element. -/
inductive CallArg where
  | int (n : Int)
  | nextGadgetAddress
deriving DecidableEq, Repr

/-- A call target: a resolved integer address, or — as `_srop_call`
produces — a raw gadget object. -/
inductive CallTarget where
  | addr (n : Nat)
  | gad (g : Gadget)
deriving DecidableEq, Repr

/-- The `Call` chain element. -/
structure CallE where
  name : String
  target : CallTarget
  args : List CallArg
  abi : ABIInfo
deriving DecidableEq, Repr

/-- One element of `ROP._chain`.  The `closure attr` constructor stands
for the `rop.call` shorthand closure that `__getattr__` (rop.py lines
908-970) returns for an attribute such as `leave` that is neither an
instance attribute, a `ret`/syscall pattern nor a register-suffix list;
`migrate` appends the object `self.leave` resolves to, which in this
program is that closure (the `__load` method that would have stored a
leave gadget is never invoked). -/
inductive ChainElem where
  | int (n : Int)
  | blob (b : List Nat)
  | frame (f : SFrame)
  | call (c : CallE)
  | gadget (g : Gadget)
  | closure (attr : String)
deriving DecidableEq, Repr

/-- One slot of the `DescriptiveStack` after the first pass.  A raw
closure object in the chain reaches the stack unchanged through the
first pass's final `else` branch. -/
inductive Slot where
  | int (n : Int)
  | bytes (b : List Nat)
  | pad
  | gadget (g : Gadget)
  | closure (attr : String)
deriving DecidableEq, Repr

/-- One slot after the second pass: integers and byte strings, plus any
closure object the second pass's final `else` branch left in place. -/
inductive RSlot where
  | int (n : Int)
  | bytes (b : List Nat)
  | closure (attr : String)
deriving DecidableEq, Repr

/-- The mutable `ROP` object state the claims touch: the chain element
list, the sealed flag, and the gadget collection. -/
structure RopState where
  chain : List ChainElem
  migrated : Bool
  gadgets : List Gadget
deriving DecidableEq, Repr

/-- Embeds `ROP.raw` (rop.py lines 673-684): appending to a migrated
chain is a hard error raised before the append. -/
def raw (st : RopState) (v : ChainElem) : Except String RopState :=
  if st.migrated then .error "Cannot append to a migrated chain"
  else .ok { st with chain := st.chain ++ [v] }

/-- Modelled from the spec: the amoco-based `GadgetClassifier` invoked by
`init_classify_and_solver` is not among the provided sources.  Per the
spec it normalizes the gadget collection, keeping the gadgets it can
model; this is embedded as a filter by an arbitrary classifiability
predicate `p`, which the claims quantify over. -/
def classify (p : Gadget → Bool) (gs : List Gadget) : List Gadget :=
  gs.filter p

/-- The observable behaviour of one `ROP.setRegisters` invocation
(rop.py lines 259-310), abstracted as a function parameter from the
classified gadget collection and the register-to-value assignment to the
ordered groups of stack fragments it emits (each group is the flattened
gadgets/values/padding for one combined register key), or a hard error
for an unsatisfiable request.  `setRegisters` is in the source but draws
fresh `random.randint` probe values on every call (rop.py line 1121) and
delegates path verification to the absent `GadgetSolver`, so two
invocations need not realize the same function; every claim below
quantifies over a `SetRegsFn` and over its output, and none assumes that
two invocations agree. -/
def SetRegsFn : Type :=
  List Gadget → List (String × CallArg) → Except String (List (String × List Slot))

/-- Pass-1 image of a call target. -/
def targetSlot : CallTarget → Slot
  | .addr n => .int n
  | .gad g => .gadget g

/-- A stack argument after the adjust-gadget bookkeeping: either one of
the call's own arguments or an appended `Padding()` marker. -/
inductive SArg where
  | arg (a : CallArg)
  | padMarker
deriving DecidableEq, Repr

/-- Final stack-argument emission loop of the Call branch: a
`NextGadgetAddress` argument becomes the computed forward address, a
padding marker stays a padding slot, anything else is appended as is. -/
def sargSlot (nga : Nat) : SArg → Slot
  | .arg (.int n) => .int n
  | .arg .nextGadgetAddress => .int nga
  | .padMarker => .pad

/-- Embeds the `Call` branch of `ROP.build`'s first pass (rop.py lines
472-530).  `next` is the absolute address of the first slot this element
will occupy (`stack.next` on entry), `remaining` the number of chain
elements after this one, and `gadgets` the (classified) gadget
collection used for the stack-adjust search. -/
def pass1Call (setRegs : SetRegsFn) (gadgets : List Gadget) (w : Nat)
    (next : Nat) (remaining : Nat) (c : CallE) : Except String (List Slot) :=
  match setRegs gadgets (c.abi.register_arguments.zip c.args) with
  | .error e => .error e
  | .ok grps =>
      let regSlots := (grps.map Prod.snd).flatten
      let afterTarget := next + w * regSlots.length + w
      let stackArguments := c.args.drop c.abi.register_arguments.length
      let nga := afterTarget + w * stackArguments.length
      if c.abi.returns then
        if remaining ≠ 0 then
          let fixBytes := (1 + stackArguments.length) * w
          match search gadgets fixBytes [] .size with
          | none => .error "Could not find gadget to adjust stack"
          | some adjust =>
              let nga' := afterTarget + adjust.move
              let padCount := (adjust.move - fixBytes + (w - 1)) / w
              let sargs := stackArguments.map SArg.arg
                ++ List.replicate padCount SArg.padMarker
              .ok (regSlots ++ [targetSlot c.target] ++ [Slot.int adjust.address]
                ++ sargs.map (sargSlot nga'))
        else
          .ok (regSlots ++ [targetSlot c.target] ++ [Slot.pad]
            ++ (stackArguments.map SArg.arg).map (sargSlot nga))
      else
        .ok (regSlots ++ [targetSlot c.target]
          ++ (stackArguments.map SArg.arg).map (sargSlot nga))

/-- The byte-blob branch of the first pass (rop.py lines 453-458): pad
with `generatePadding(stack.next, len(slot) % context.bytes)`, then split
into chunks. -/
def blobSlots (w next : Nat) (b : List Nat) : List Slot :=
  (chunksOf w (b ++ generatePadding next (b.length % w))).map Slot.bytes

/-- The SigreturnFrame branch of the first pass (rop.py lines 460-470):
each register's value appended in the frame's fixed order. -/
def frameSlots (f : SFrame) : List Slot :=
  (registersOf f.arch).map (fun r =>
    match frameLookup f r with
    | .int n => Slot.int n
    | .gad g => Slot.gadget g)

/-- First-pass handling of one chain element.  The `Call` branch first
reclassifies the gadget collection (`setRegisters` calls
`init_classify_and_solver`, which replaces `self.gadgets`), so it returns
the updated collection alongside the emitted slots. -/
def pass1Elem (p : Gadget → Bool) (setRegs : SetRegsFn) (w next remaining : Nat)
    (gs : List Gadget) : ChainElem → Except String (List Slot × List Gadget)
  | .int n => .ok ([Slot.int n], gs)
  | .blob b => .ok (blobSlots w next b, gs)
  | .frame f => .ok (frameSlots f, gs)
  | .gadget g => .ok ([Slot.gadget g], gs)
  | .closure a => .ok ([Slot.closure a], gs)
  | .call c =>
      match pass1Call setRegs (classify p gs) w next remaining c with
      | .error e => .error e
      | .ok slots => .ok (slots, classify p gs)

/-- The whole first pass: fold over the chain, threading the absolute
next-slot address and the gadget collection. -/
def pass1Aux (p : Gadget → Bool) (setRegs : SetRegsFn) (w : Nat) :
    Nat → List Gadget → List ChainElem → Except String (List Slot × List Gadget)
  | _, gs, [] => .ok ([], gs)
  | next, gs, e :: rest =>
      match pass1Elem p setRegs w next rest.length gs e with
      | .error msg => .error msg
      | .ok (s, gs') =>
          match pass1Aux p setRegs w (next + w * s.length) gs' rest with
          | .error msg => .error msg
          | .ok (s', gs'') => .ok (s ++ s', gs'')

/-- Second-pass resolution of one slot at index `i` (rop.py lines
542-569): padding becomes the position-derived filler, a gadget becomes
its address, integers and byte chunks pass through, and anything else —
such as a raw closure object — is left in place by the final `else`
branch. -/
def resolveSlot (w i : Nat) : Slot → RSlot
  | .int n => .int n
  | .bytes b => .bytes b
  | .pad => .bytes (generatePadding (i * w) w)
  | .gadget g => .int g.address
  | .closure a => .closure a

/-- The whole second pass. -/
def pass2 (w : Nat) : Nat → List Slot → List RSlot
  | _, [] => []
  | i, s :: rest => resolveSlot w i s :: pass2 w (i + 1) rest

/-- Embeds `ROP.build(base)`: both passes, returning the resolved stack
and the state after the build (the chain itself is never written; only
the gadget collection is replaced by its classification when a `Call`
element is processed). -/
def build (p : Gadget → Bool) (setRegs : SetRegsFn) (w : Nat) (st : RopState)
    (base : Nat) : Except String (List RSlot × RopState) :=
  match pass1Aux p setRegs w base st.gadgets st.chain with
  | .error e => .error e
  | .ok (slots, gs') => .ok (pass2 w 0 slots, { st with gadgets := gs' })

/-! ## Stack migration (ROP.migrate, rop.py lines 686-702)

The gadgets `migrate` consults are resolved by attribute dispatch:
`self.rsp`, `self.esp`, `self.rbp` and `self.ebp` hit the
register-suffix branch of `__getattr__` (rop.py line 961) and become
`search(regs=[name], order='regs')`.  `self.leave`, however, does not:
`__load` — the only method that would store a `leave` attribute (rop.py
lines 850-853) — is never invoked in this program (`__init__` loads
gadgets through `GadgetFinder`), and `'leave'` matches none of
`__getattr__`'s patterns (`'ve'` is not a register suffix), so the
lookup falls through to the `rop.call` shorthand and returns a closure
(rop.py lines 967-970).  That closure is always truthy, so the
base-pointer fallback requires no leave gadget, and it is the closure
object itself — not a gadget — that `raw` appends third. -/

/-- The gadget `self.rsp or self.esp` resolves to: attribute dispatch
turns each name into `search(regs=[name], order='regs')`. -/
def popSpOf (gadgets : List Gadget) : Option Gadget :=
  (search gadgets 0 ["rsp"] .regs).orElse (fun _ => search gadgets 0 ["esp"] .regs)

/-- The gadget `self.rbp or self.ebp` resolves to. -/
def popBpOf (gadgets : List Gadget) : Option Gadget :=
  (search gadgets 0 ["rbp"] .regs).orElse (fun _ => search gadgets 0 ["ebp"] .regs)

/-- The truthiness-and-arity test `pop and len(pop.regs) == 1`. -/
def popSingle (o : Option Gadget) : Option Gadget :=
  match o with
  | some g => if g.regs.length = 1 then some g else none
  | none => none

/-- Embeds `ROP.migrate(next_base)` (rop.py lines 686-702) as it runs in
this program.  The `isinstance(next_base, ROP)` rebinding is outside the
claims and omitted; `next_base` is an integer.  `leave` is the
always-truthy `__getattr__` closure (see the section comment), so the
`pop_bp and leave and len(pop_bp.regs) == 1` test reduces to the
single-register base-pointer pop, and `self.raw(leave)` appends the
closure object.  On the fallback the source emits the literal
`next_base - 4`. -/
def migrate (st : RopState) (next_base : Int) : Except String RopState :=
  match popSingle (popSpOf st.gadgets) with
  | some g =>
      (match raw st (.gadget g) with
      | .error e => .error e
      | .ok st1 =>
          match raw st1 (.int next_base) with
          | .error e => .error e
          | .ok st2 => .ok { st2 with migrated := true })
  | none =>
      match popSingle (popBpOf st.gadgets) with
      | some g =>
          (match raw st (.gadget g) with
          | .error e => .error e
          | .ok st1 =>
              match raw st1 (.int (next_base - 4)) with
              | .error e => .error e
              | .ok st2 =>
                  match raw st2 (.closure "leave") with
                  | .error e => .error e
                  | .ok st3 => .ok { st3 with migrated := true })
      | none => .error "Cannot find the gadgets to migrate"

/-! ## Call resolution (ROP.call / ROP._srop_call, rop.py lines 589-662) -/
/-- Embeds `ROP.resolve` for string arguments (rop.py lines 351-366): the
first loaded binary whose symbol table knows the name wins; an unknown
name resolves to nothing. -/
def resolveSym (symtabs : List (List (String × Nat))) (s : String) : Option Nat :=
  match symtabs.find? (fun tab => (tab.lookup s).isSome) with
  | some tab => tab.lookup s
  | none => none

/-- The `srop.syscall_instructions` table (srop.py lines 58-65),
restricted to the three architectures with a frame layout. -/
def syscall_instructions : Arch → List String
  | .amd64 => ["int 0x80", "syscall", "sysenter"]
  | .i386 => ["int 0x80", "syscall", "sysenter"]
  | .arm => ["svc 0"]

/-- Embeds `ROP.find_gadget` (rop.py lines 664-671): the first gadget
whose instruction list matches exactly. -/
def find_gadget (gadgets : List Gadget) (instructions : List String) : Option Gadget :=
  gadgets.find? (fun g => decide (g.insns = instructions))

/-- The syscall-gadget scan of `_srop_call` (rop.py lines 631-636): try
each syscall instruction in order, stopping at the first hit. -/
def findSyscallGadget (gadgets : List Gadget) : List String → Option Gadget
  | [] => none
  | i :: rest =>
      match find_gadget gadgets [i] with
      | some g => some g
      | none => findSyscallGadget gadgets rest

/-- Modelled from the spec: the `pwnlib.abi` syscall-ABI register order
per architecture (syscall number register first, then arguments). -/
def syscallRegisterArguments : Arch → List String
  | .i386 => ["eax", "ebx", "ecx", "edx", "esi", "edi", "ebp"]
  | .amd64 => ["rax", "rdi", "rsi", "rdx", "r10", "r8", "r9"]
  | .arm => ["r7", "r0", "r1", "r2", "r3", "r4", "r5"]

/-- The syscall-number register (`ABI.syscall(arch).syscall_register`). -/
def syscallRegister : Arch → String
  | .i386 => "eax"
  | .amd64 => "rax"
  | .arm => "r7"

/-- The `srop.instruction_pointers` table (srop.py lines 44-48). -/
def instructionPointerOf : Arch → String
  | .i386 => "eip"
  | .amd64 => "rip"
  | .arm => "pc"

/-- The frame's argument registers, `register_arguments[1:]` of the
syscall ABI (srop.py lines 149-151). -/
def frameArguments (arch : Arch) : List String :=
  (syscallRegisterArguments arch).tail

/-- Modelled from the spec: `ABI.sigreturn()` — the sigreturn pseudo-ABI
passes the syscall number in the syscall register and does not expect to
resume. -/
def sigreturnAbi (arch : Arch) : ABIInfo :=
  ⟨[syscallRegister arch], false⟩

/-- Write a list of register assignments into the frame, failing on the
first rejected write. -/
def setFrameArgs (f : SFrame) (pairs : List (String × FrameVal)) :
    Except String SFrame :=
  pairs.foldlM (fun acc p => setitemF acc p.1 p.2) f

/-- Embeds `ROP._srop_call` (rop.py lines 618-662).  The return value
distinguishes the source returning `False` for an unknown syscall name
(`.ok none`, nothing appended) from a successful sigreturn setup
(`.ok (some st)`, the call and the frame appended and the chain sealed).
The `constants` table of syscall numbers is modelled from the spec as an
association list because `pwnlib.constants` is not among the provided
sources. -/
def sropCall (arch : Arch) (constants : List (String × Nat)) (st : RopState)
    (resolvable : String) (args : List Int) : Except String (Option RopState) :=
  let name := "SYS_" ++ resolvable.toLower
  match constants.lookup name with
  | none => .ok none
  | some syscall_number =>
      match findSyscallGadget st.gadgets (syscall_instructions arch) with
      | none => .error "Could not find any syscall instructions"
      | some syscall_gadget =>
          match setitemF (initFrame arch) (instructionPointerOf arch)
              (.gad syscall_gadget) with
          | .error e => .error e
          | .ok frame₁ =>
              match setitemF frame₁ (syscallRegister arch)
                  (.int (syscall_number : Nat)) with
              | .error e => .error e
              | .ok frame₂ =>
                  match constants.lookup "SYS_sigreturn" with
                  | none => .error "AttributeError: SYS_sigreturn"
                  | some sigreturnNumber =>
                      match setFrameArgs frame₂
                          ((frameArguments arch).zip (args.map FrameVal.int)) with
                      | .error e => .error e
                      | .ok frame₃ =>
                          match raw st (ChainElem.call
                              ⟨"SYS_sigreturn", .gad syscall_gadget,
                                [CallArg.int (sigreturnNumber : Int)],
                                sigreturnAbi arch⟩) with
                          | .error e => .error e
                          | .ok st₁ =>
                              match raw st₁ (.frame frame₃) with
                              | .error e => .error e
                              | .ok st₂ => .ok (some { st₂ with migrated := true })

/-- The argument of `ROP.call`: a symbol name or an integer address. -/
inductive Resolvable where
  | str (s : String)
  | int (n : Nat)
deriving DecidableEq, Repr

/-- The address a `call` argument resolves to: a name goes through the
symbol tables, an integer stands for itself. -/
def resolvedAddr (symtabs : List (List (String × Nat))) : Resolvable → Option Nat
  | .str s => resolveSym symtabs s
  | .int n => some n

/-- The name recorded for the call: the symbol name, or the empty string
for an integer target (`resolvable = ''` in the source). -/
def resolvedName : Resolvable → String
  | .str s => s
  | .int _ => ""

/-- Embeds `ROP.call` (rop.py lines 589-614).  A string argument is
resolved against the symbol tables and keeps its name; an integer
argument becomes the address with an empty name.  A truthy (non-zero)
address appends a `Call`; otherwise the sigreturn fallback runs, and if
it reports an unknown syscall the source raises "Could not resolve".
`defaultAbi` stands for the `ABI.default()` the `Call` constructor
substitutes for `abi=None` (pwnlib.abi is not among the provided
sources). -/
def callM (arch : Arch) (constants : List (String × Nat))
    (symtabs : List (List (String × Nat))) (defaultAbi : ABIInfo)
    (st : RopState) (resolvable : Resolvable) (args : List Int) :
    Except String RopState :=
  if st.migrated then .error "Cannot append to a migrated chain"
  else
    let addr : Option Nat := resolvedAddr symtabs resolvable
    let name : String := resolvedName resolvable
    match addr with
    | some a =>
        if a ≠ 0 then
          raw st (.call ⟨name, .addr a, args.map CallArg.int, defaultAbi⟩)
        else
          match sropCall arch constants st name args with
          | .ok none => .error ("Could not resolve " ++ name)
          | .ok (some st') => .ok st'
          | .error e => .error e
    | none =>
        match sropCall arch constants st name args with
        | .ok none => .error ("Could not resolve " ++ name)
        | .ok (some st') => .ok st'
        | .error e => .error e

/-! ## Concrete fixtures used by counterexamples and witnesses -/
/-- A one-register `pop rdi; ret` gadget. -/
def popRdiG : Gadget := ⟨0x500, ["pop rdi", "ret"], ["rdi"], 16⟩

/-- A register-assignment result that sets `rdi` with one pop gadget
followed by its popped value, as `setRegisters` emits for a
single-register request. -/
def setRegsRdiOne : SetRegsFn :=
  fun _ _ => .ok [("rdi", [Slot.gadget popRdiG, Slot.int 1])]

/-- The scenario call of the claim: target 0xdead0000, one register
argument and two stack arguments under an ABI with one register slot,
with an ABI that expects to resume. -/
def scenarioCall : CallE :=
  ⟨"func", .addr 0xdead0000,
    [CallArg.int 1, CallArg.int 0x1111, CallArg.int 0x2222],
    ⟨["rdi"], true⟩⟩

/-- The same call under an ABI that does not expect to resume. -/
def scenarioCallNoReturn : CallE :=
  ⟨"func", .addr 0xdead0000,
    [CallArg.int 1, CallArg.int 0x1111, CallArg.int 0x2222],
    ⟨["rdi"], false⟩⟩

/-- A one-register `pop rbp; ret` gadget. -/
def popRbpG : Gadget := ⟨0x100, ["pop rbp", "ret"], ["rbp"], 16⟩

/-- A `leave; ret` gadget recorded with both frame registers and the
sentinel move, as the loader would represent it on a 64-bit binary. -/
def leaveRetG : Gadget := ⟨0x200, ["leave", "ret"], ["rbp", "rsp"], 10000000003⟩

/-- Total byte count of the chunks a first-pass slot contributes. -/
def slotByteLen : Slot → Nat
  | .bytes b => b.length
  | _ => 0

/-! ## Supporting lemmas -/

theorem leBytes_length (w v : Nat) : (leBytes w v).length = w := by
  induction w generalizing v with
  | zero => rfl
  | succ w ih => simp [leBytes, ih]

theorem serializeFrame_length (arch : Arch) (f : Frame) :
    (serializeFrame arch f).length = wordBytes arch * (registersOf arch).length := by
  unfold serializeFrame
  induction registersOf arch with
  | nil => simp
  | cons r rs ih =>
      simp [List.flatten, leBytes_length, ih, Nat.mul_succ, Nat.add_comm]

/-- Mapping the word-packing over registers other than the updated one is
unchanged by the update. -/
theorem map_frameUpdate_not_mem (w : Nat) (f : Frame) (item : String) (v : Nat)
    (l : List String) (h : item ∉ l) :
    l.map (fun r => leBytes w (frameUpdate f item v r)) =
      l.map (fun r => leBytes w (f r)) := by
  induction l with
  | nil => rfl
  | cons a l ih =>
      simp only [List.mem_cons, not_or] at h
      simp only [List.map_cons, ih h.2, List.cons.injEq, and_true]
      have : a ≠ item := fun hc => h.1 hc.symm
      simp [frameUpdate, this]

/-- Generalization of `serializeFrame_length` to any register list. -/
theorem flatten_map_leBytes_length (w : Nat) (f : Frame) (l : List String) :
    ((l.map fun r => leBytes w (f r)).flatten).length = w * l.length := by
  induction l with
  | nil => simp
  | cons a l ih => simp [leBytes_length, ih, Nat.mul_succ, Nat.add_comm]

/-- Updating one frame register rewrites exactly that register's word in
the serialization, leaving every byte before and after unchanged. -/
theorem serializeFrame_update (arch : Arch) (f : Frame) (r : String) (v : Nat)
    (A B : List String) (hsplit : registersOf arch = A ++ r :: B)
    (hA : r ∉ A) (hB : r ∉ B) :
    serializeFrame arch (frameUpdate f r v) =
      (serializeFrame arch f).take (wordBytes arch * A.length)
        ++ leBytes (wordBytes arch) v
        ++ (serializeFrame arch f).drop (wordBytes arch * A.length + wordBytes arch) := by
  have hval : frameUpdate f r v r = v := by simp [frameUpdate]
  have hlenA : ((A.map fun s => leBytes (wordBytes arch) (f s)).flatten).length
      = wordBytes arch * A.length := flatten_map_leBytes_length _ _ _
  unfold serializeFrame
  rw [hsplit]
  simp only [List.map_append, List.map_cons, List.flatten_append, List.flatten_cons]
  rw [map_frameUpdate_not_mem (wordBytes arch) f r v A hA, hval]
  have htake :
      (((A.map fun s => leBytes (wordBytes arch) (f s)).flatten)
        ++ (leBytes (wordBytes arch) (f r)
          ++ (B.map fun s => leBytes (wordBytes arch) (f s)).flatten)).take
            (wordBytes arch * A.length)
      = (A.map fun s => leBytes (wordBytes arch) (f s)).flatten :=
    List.take_left' hlenA
  have hdrop :
      (((A.map fun s => leBytes (wordBytes arch) (f s)).flatten)
        ++ (leBytes (wordBytes arch) (f r)
          ++ (B.map fun s => leBytes (wordBytes arch) (f s)).flatten)).drop
            (wordBytes arch * A.length + wordBytes arch)
      = (B.map fun s => leBytes (wordBytes arch) (f s)).flatten := by
    rw [← hlenA, List.drop_append]
    exact List.drop_left' (leBytes_length _ _)
  rw [htake, hdrop, map_frameUpdate_not_mem (wordBytes arch) f r v B hB,
    List.append_assoc]

/-- A successful `setitem` performs exactly the pointwise update. -/
theorem setitem_ok (arch : Arch) (f : Frame) (item : String) (v : Nat)
    (g : Frame) (h : setitem arch f item v = .ok g) :
    g = frameUpdate f item v := by
  unfold setitem at h
  split at h
  · cases h
  · split at h
    · cases h
    · cases h; rfl

/-- The source tests `value & 0x7` for ARM stack-pointer alignment; the
claim speaks of 8-byte alignment.  The two are equivalent. -/
theorem and_seven_ne_zero_iff (v : Nat) : v &&& 0x7 ≠ 0 ↔ ¬ (8 ∣ v) := by
  have h7 : (0x7 : Nat) = 2 ^ 3 - 1 := by norm_num
  rw [h7, Nat.and_pow_two_sub_one_eq_mod, Ne, ← Nat.dvd_iff_mod_eq_zero]

theorem keyLt_irrefl (a : Nat × Nat × Nat) : ¬ keyLt a a := by
  obtain ⟨a1, a2, a3⟩ := a; unfold keyLt; simp

theorem keyLt_trans {a b c : Nat × Nat × Nat} :
    keyLt a b → keyLt b c → keyLt a c := by
  obtain ⟨a1, a2, a3⟩ := a; obtain ⟨b1, b2, b3⟩ := b; obtain ⟨c1, c2, c3⟩ := c
  unfold keyLt; omega

theorem keyLt_of_not_lt_of_lt {a b c : Nat × Nat × Nat} :
    ¬ keyLt a b → keyLt a c → keyLt b c := by
  obtain ⟨a1, a2, a3⟩ := a; obtain ⟨b1, b2, b3⟩ := b; obtain ⟨c1, c2, c3⟩ := c
  unfold keyLt; omega

theorem foldl_min_mem (key : Gadget → Nat × Nat × Nat) :
    ∀ (gs : List Gadget) (acc : Gadget),
      gs.foldl (fun a x => if keyLt (key x) (key a) then x else a) acc ∈ acc :: gs
  | [], acc => by simp
  | x :: gs, acc => by
      simp only [List.foldl_cons]
      have h := foldl_min_mem key gs (if keyLt (key x) (key acc) then x else acc)
      rcases List.mem_cons.mp h with h1 | h1
      · rw [h1]
        split
        · exact List.mem_cons_of_mem _ (List.mem_cons_self _ _)
        · exact List.mem_cons_self _ _
      · exact List.mem_cons_of_mem _ (List.mem_cons_of_mem _ h1)

theorem foldl_min_not_lt (key : Gadget → Nat × Nat × Nat) :
    ∀ (gs : List Gadget) (acc : Gadget) (h : Gadget), h ∈ acc :: gs →
      ¬ keyLt (key h)
        (key (gs.foldl (fun a x => if keyLt (key x) (key a) then x else a) acc))
  | [], acc, h, hmem => by
      simp only [List.mem_singleton] at hmem
      subst hmem
      simp only [List.foldl_nil]
      exact keyLt_irrefl _
  | x :: gs, acc, h, hmem => by
      simp only [List.foldl_cons]
      by_cases hc : keyLt (key x) (key acc)
      · rw [if_pos hc]
        rcases List.mem_cons.mp hmem with h1 | h1
        · rw [h1]
          intro habs
          exact foldl_min_not_lt key gs x x (List.mem_cons_self _ _)
            (keyLt_trans hc habs)
        · exact foldl_min_not_lt key gs x h h1
      · rw [if_neg hc]
        rcases List.mem_cons.mp hmem with h1 | h1
        · rw [h1]
          exact foldl_min_not_lt key gs acc acc (List.mem_cons_self _ _)
        · rcases List.mem_cons.mp h1 with h2 | h2
          · rw [h2]
            intro habs
            exact foldl_min_not_lt key gs acc acc (List.mem_cons_self _ _)
              (keyLt_of_not_lt_of_lt hc habs)
          · exact foldl_min_not_lt key gs acc h (List.mem_cons_of_mem _ h2)

theorem minBy_mem {key : Gadget → Nat × Nat × Nat} {l : List Gadget} {g : Gadget}
    (h : minBy key l = some g) : g ∈ l := by
  cases l with
  | nil => cases h
  | cons x xs =>
      unfold minBy at h
      injection h with h
      rw [← h]
      exact foldl_min_mem key xs x

theorem minBy_not_lt {key : Gadget → Nat × Nat × Nat} {l : List Gadget} {g : Gadget}
    (h : minBy key l = some g) : ∀ x ∈ l, ¬ keyLt (key x) (key g) := by
  cases l with
  | nil => cases h
  | cons y ys =>
      unfold minBy at h
      injection h with h
      intro x hx
      rw [← h]
      exact foldl_min_not_lt key ys y x hx

theorem search_mem {gadgets : List Gadget} {move : Nat} {regs : List String}
    {order : SearchOrder} {g : Gadget} (h : search gadgets move regs order = some g) :
    g ∈ gadgets ∧ move ≤ g.move ∧ ∀ r ∈ regs, r ∈ g.regs := by
  have hm := minBy_mem h
  unfold searchMatches at hm
  have := List.of_mem_filter hm
  simp only [Bool.and_eq_true, decide_eq_true_eq, List.all_eq_true] at this
  exact ⟨List.mem_of_mem_filter hm, this.1, this.2⟩

theorem cyclicBytes_length (n : Nat) : (cyclicBytes n).length = n := by
  simp [cyclicBytes]

theorem popSpOf_some {gs : List Gadget} {g : Gadget} (h : popSpOf gs = some g) :
    g ∈ gs ∧ ("rsp" ∈ g.regs ∨ "esp" ∈ g.regs) := by
  unfold popSpOf at h
  cases hr : search gs 0 ["rsp"] .regs with
  | some g' =>
      rw [hr] at h
      simp only [Option.orElse] at h
      injection h with h
      subst h
      have hm := search_mem hr
      exact ⟨hm.1, Or.inl (hm.2.2 "rsp" (by simp))⟩
  | none =>
      rw [hr] at h
      simp only [Option.orElse] at h
      have hm := search_mem h
      exact ⟨hm.1, Or.inr (hm.2.2 "esp" (by simp))⟩

theorem popBpOf_some {gs : List Gadget} {g : Gadget} (h : popBpOf gs = some g) :
    g ∈ gs ∧ ("rbp" ∈ g.regs ∨ "ebp" ∈ g.regs) := by
  unfold popBpOf at h
  cases hr : search gs 0 ["rbp"] .regs with
  | some g' =>
      rw [hr] at h
      simp only [Option.orElse] at h
      injection h with h
      subst h
      have hm := search_mem hr
      exact ⟨hm.1, Or.inl (hm.2.2 "rbp" (by simp))⟩
  | none =>
      rw [hr] at h
      simp only [Option.orElse] at h
      have hm := search_mem h
      exact ⟨hm.1, Or.inr (hm.2.2 "ebp" (by simp))⟩

theorem findSyscallGadget_mem {gs : List Gadget} {g : Gadget} :
    ∀ {instrs : List String}, findSyscallGadget gs instrs = some g → g ∈ gs := by
  intro instrs
  induction instrs with
  | nil => intro h; cases h
  | cons i rest ih =>
      intro h
      unfold findSyscallGadget at h
      split at h
      · next g' hf =>
          injection h with h
          subst h
          exact List.mem_of_find?_eq_some hf
      · exact ih h

/-- A successful sigreturn fallback appends exactly one `Call` targeting
a syscall gadget from the gadget set (never the integer address 0)
followed by the frame, and seals the chain. -/
theorem sropCall_ok_some (arch : Arch) (constants : List (String × Nat))
    (st : RopState) (resolvable : String) (args : List Int) (st' : RopState)
    (hmig : st.migrated = false)
    (h : sropCall arch constants st resolvable args = .ok (some st')) :
    ∃ g n fr, g ∈ st.gadgets ∧
      st'.chain = st.chain ++
        [ChainElem.call ⟨"SYS_sigreturn", .gad g, [CallArg.int n], sigreturnAbi arch⟩,
          ChainElem.frame fr]
      ∧ st'.migrated = true ∧ st'.gadgets = st.gadgets := by
  obtain ⟨chain, mig, gads⟩ := st
  simp only at hmig
  subst hmig
  cases hlk : List.lookup ("SYS_" ++ resolvable.toLower) constants with
  | none =>
      simp only [sropCall, hlk] at h
      cases h
  | some num =>
      simp only [sropCall, hlk] at h
      cases hg : findSyscallGadget gads (syscall_instructions arch) with
      | none =>
          simp only [hg] at h
          cases h
      | some g =>
          simp only [hg] at h
          cases hf1 : setitemF (initFrame arch) (instructionPointerOf arch) (.gad g) with
          | error e =>
              simp only [hf1] at h
              cases h
          | ok f1 =>
              simp only [hf1] at h
              cases hf2 : setitemF f1 (syscallRegister arch) (.int (num : Nat)) with
              | error e =>
                  simp only [hf2] at h
                  cases h
              | ok f2 =>
                  simp only [hf2] at h
                  cases hsn : List.lookup "SYS_sigreturn" constants with
                  | none =>
                      simp only [hsn] at h
                      cases h
                  | some sn =>
                      simp only [hsn] at h
                      cases hf3 : setFrameArgs f2
                          ((frameArguments arch).zip (args.map FrameVal.int)) with
                      | error e =>
                          simp only [hf3] at h
                          cases h
                      | ok f3 =>
                          simp only [hf3, raw] at h
                          injection h with h
                          injection h with h
                          refine ⟨g, (sn : Int), f3, findSyscallGadget_mem hg,
                            ?_, ?_, ?_⟩ <;> rw [← h] <;> simp

end Binjitsu

/-! ## The claims -/

open Binjitsu in
/-- C3 (code bug): on the docstring's own example graph — which contains
the two-cycle eax ⇄ ebx — `__build_top_sort` emits only "edx"; the two
remaining cyclic nodes then each have recorded in-degree 1, so the
cycle-breaking branch (which requires an in-degree greater than 1) never
fires, the function falls off the end, and Python returns `None` instead
of an ordering containing every node exactly once. -/
theorem build_top_sort_doc_example_returns_none :
    build_top_sort topSortDocExample = some none := by
  decide

open Binjitsu in
/-- C8 counterexample: with a gadget set containing only a leave-derived
sentinel gadget, `search(move=0)` returns that gadget even though the
stack-pointer register was not among the requested registers, refuting
the claim that search never returns a sentinel-move gadget unless the
stack pointer was explicitly requested. -/
theorem search_sentinel_counterexample :
    search [leaveOnlyG] 0 [] .size = some leaveOnlyG
    ∧ SENTINEL ≤ leaveOnlyG.move
    ∧ "esp" ∉ ([] : List String)
    ∧ "rsp" ∉ ([] : List String) := by
  refine ⟨rfl, by decide, by simp, by simp⟩

open Binjitsu in
/-- C8 (amended): `search(move=N)` returns no result when no gadget in
the set moves the stack pointer by at least `N` bytes; and under the
default size ordering, search returns a match of minimal
(move, register-count, address), so it returns a gadget with a
sentinel-sized (leave-derived) move only when every matching gadget has a
sentinel-sized move — whether or not the stack-pointer register was
requested. -/
theorem search_move_bound_and_sentinel (gadgets : List Gadget) (N : Nat)
    (regs : List String) (order : SearchOrder) :
    ((∀ g ∈ gadgets, g.move < N) → search gadgets N regs order = none)
    ∧ (∀ g, search gadgets N regs .size = some g →
        (∃ h ∈ gadgets, N ≤ h.move ∧ (∀ r ∈ regs, r ∈ h.regs) ∧ h.move < SENTINEL) →
        g.move < SENTINEL) := by
  constructor
  · intro hall
    unfold search
    have : searchMatches gadgets N regs = [] := by
      unfold searchMatches
      rw [List.filter_eq_nil_iff]
      intro g hg
      simp only [Bool.and_eq_true, decide_eq_true_eq, List.all_eq_true, not_and]
      intro hle
      exact absurd hle (Nat.not_le.mpr (hall g hg))
    rw [this]
    rfl
  · rintro g hsearch ⟨h, hmem, hmove, hregs, hsent⟩
    have hmatch : h ∈ searchMatches gadgets N regs := by
      unfold searchMatches
      refine List.mem_filter.mpr ⟨hmem, ?_⟩
      simp only [Bool.and_eq_true, decide_eq_true_eq, List.all_eq_true]
      exact ⟨hmove, hregs⟩
    have hnot := minBy_not_lt hsearch h hmatch
    unfold keyLt searchKey at hnot
    simp only [not_or, not_and, not_lt] at hnot
    omega

open Binjitsu in
/-- Witness for C8 (amended): a pop gadget moving 8 bytes is not found
when 9 bytes are requested, and with both a sentinel leave gadget and the
pop gadget present, the gadget search returns one under the sentinel. -/
theorem search_move_bound_and_sentinel_witness :
    search [popEaxG] 9 [] .size = none ∧ popEaxG.move < SENTINEL :=
  ⟨(search_move_bound_and_sentinel [popEaxG] 9 [] .size).1 (by decide),
    (search_move_bound_and_sentinel [leaveOnlyG, popEaxG] 0 [] .size).2 popEaxG rfl
      ⟨popEaxG, by decide, by decide, by simp, by decide⟩⟩

open Binjitsu in
/-- C4: For every supported architecture, the SigreturnFrame serialization
has the architecture's fixed frame length (word size times the number of
frame registers, 80 bytes on i386 and 248 bytes on amd64), and after a
successful write of any register `r` of the frame's register set
(occurring at position `A.length` of the register list), re-serializing
produces bytes that differ from the previous serialization only at that
register's fixed word offset: the new serialization is the old one with
the one word at byte offset `wordBytes * A.length` replaced by the packed
new value. -/
theorem srop_frame_length_and_update_locality (arch : Arch) (f g : Frame)
    (r : String) (v : Nat) (A B : List String)
    (hok : setitem arch f r v = .ok g)
    (hsplit : registersOf arch = A ++ r :: B)
    (hA : r ∉ A) (hB : r ∉ B) :
    (serializeFrame arch f).length = wordBytes arch * (registersOf arch).length
    ∧ wordBytes Arch.i386 * (registersOf Arch.i386).length = 80
    ∧ wordBytes Arch.amd64 * (registersOf Arch.amd64).length = 248
    ∧ serializeFrame arch g =
        (serializeFrame arch f).take (wordBytes arch * A.length)
          ++ leBytes (wordBytes arch) v
          ++ (serializeFrame arch f).drop (wordBytes arch * A.length + wordBytes arch) := by
  refine ⟨serializeFrame_length arch f, by decide, by decide, ?_⟩
  rw [setitem_ok arch f r v g hok]
  exact serializeFrame_update arch f r v A B hsplit hA hB

open Binjitsu in
/-- Witness for C4: on i386, writing 5 into `eax` (the 12th register, word
offset 44) rewrites exactly bytes 44..47 of the 80-byte serialization. -/
theorem srop_frame_length_and_update_locality_witness :
    serializeFrame Arch.i386 (frameUpdate (initNumFrame Arch.i386) "eax" 5) =
      (serializeFrame Arch.i386 (initNumFrame Arch.i386)).take 44
        ++ leBytes 4 5
        ++ (serializeFrame Arch.i386 (initNumFrame Arch.i386)).drop 48 :=
  (srop_frame_length_and_update_locality Arch.i386 (initNumFrame Arch.i386)
    (frameUpdate (initNumFrame Arch.i386) "eax" 5) "eax" 5
    ["gs", "fs", "es", "ds", "edi", "esi", "ebp", "esp", "ebx", "edx", "ecx"]
    ["trapno", "err", "eip", "cs", "eflags", "esp_at_signal", "ss", "fpstate"]
    rfl rfl (by decide) (by decide)).2.2.2

open Binjitsu in
/-- C5: Writing a SigreturnFrame register raises a hard error if and only
if the register name is not in the architecture's frame register set, or
the architecture is ARM, the register is the stack pointer, and the value
is not 8-byte aligned; in the error cases no frame is produced (the
source raises before the write, leaving the mapping unchanged), and in
all other cases the write succeeds and is exactly the pointwise update. -/
theorem srop_setitem_error_iff (arch : Arch) (f : Frame) (item : String) (v : Nat) :
    ((∃ e, setitem arch f item v = .error e) ↔
      (item ∉ registersOf arch ∨ (arch = Arch.arm ∧ item = "sp" ∧ ¬ (8 ∣ v))))
    ∧ (∀ g, setitem arch f item v = .ok g → g = frameUpdate f item v) := by
  constructor
  · constructor
    · rintro ⟨e, he⟩
      unfold setitem at he
      split at he
      · left; assumption
      · split at he
        · right
          next hcond => exact ⟨hcond.1, hcond.2.1, (and_seven_ne_zero_iff v).mp hcond.2.2⟩
        · cases he
    · intro h
      unfold setitem
      split
      · exact ⟨_, rfl⟩
      · next hmem =>
          split
          · exact ⟨_, rfl⟩
          · next hcond =>
              rcases h with h | h
              · exact absurd h hmem
              · exact absurd ⟨h.1, h.2.1, (and_seven_ne_zero_iff v).mpr h.2.2⟩ hcond
  · intro g h
    exact setitem_ok arch f item v g h

open Binjitsu in
/-- Witness for C5: on ARM, writing the misaligned value 12 to `sp` is a
hard error, and writing 16 succeeds as the pointwise update. -/
theorem srop_setitem_error_iff_witness :
    ∃ e, setitem Arch.arm (initNumFrame Arch.arm) "sp" 12 = .error e :=
  (srop_setitem_error_iff Arch.arm (initNumFrame Arch.arm) "sp" 12).1.mpr
    (Or.inr ⟨rfl, rfl, by decide⟩)

open Binjitsu in
/-- C1 counterexample: a Call element whose ABI does not expect to resume
(`returns = False`), placed as the chain's last element, gets no padding
at all — its stack arguments follow the call target directly — refuting
the claim that every non-resuming or last Call gets exactly one word of
inert padding.  The `if slot.abi.returns:` guard in the source skips both
the adjust gadget and the padding for a non-resuming ABI. -/
theorem call_nonresuming_padding_counterexample :
    pass1Call setRegsRdiOne [] 8 0 0 scenarioCallNoReturn =
      .ok [Slot.gadget popRdiG, Slot.int 1, Slot.int 0xdead0000,
        Slot.int 0x1111, Slot.int 0x2222]
    ∧ Slot.pad ∉ [Slot.gadget popRdiG, Slot.int 1, Slot.int 0xdead0000,
        Slot.int 0x1111, Slot.int 0x2222] := by
  exact ⟨rfl, by decide⟩

open Binjitsu in
/-- C1 (amended): in build's first pass, a Call element whose ABI expects
to resume and that is the chain's last element gets exactly one word of
inert padding between the call target and its stack arguments — the
emitted slots are the register-setting fragments, the target, one
padding slot, then the stack arguments in order — while a Call whose ABI
does not expect to resume gets no padding at all, whatever its position:
its stack arguments follow the target directly. -/
theorem call_padding_when_returns_and_last (setRegsF : SetRegsFn)
    (gadgets : List Gadget) (w next : Nat) (c : CallE)
    (grps : List (String × List Slot))
    (hok : setRegsF gadgets (c.abi.register_arguments.zip c.args) = .ok grps) :
    (c.abi.returns = true →
      pass1Call setRegsF gadgets w next 0 c =
        .ok ((grps.map Prod.snd).flatten ++ [targetSlot c.target] ++ [Slot.pad]
          ++ ((c.args.drop c.abi.register_arguments.length).map SArg.arg).map
              (sargSlot (next + w * (grps.map Prod.snd).flatten.length + w
                + w * (c.args.drop c.abi.register_arguments.length).length))))
    ∧ (c.abi.returns = false → ∀ remaining,
      pass1Call setRegsF gadgets w next remaining c =
        .ok ((grps.map Prod.snd).flatten ++ [targetSlot c.target]
          ++ ((c.args.drop c.abi.register_arguments.length).map SArg.arg).map
              (sargSlot (next + w * (grps.map Prod.snd).flatten.length + w
                + w * (c.args.drop c.abi.register_arguments.length).length)))) := by
  constructor
  · intro hret
    unfold pass1Call
    rw [hok, hret]
    simp
  · intro hret remaining
    unfold pass1Call
    rw [hok, hret]
    simp

open Binjitsu in
/-- Witness for C1 (amended), instantiating the claim's scenario: a call
to 0xdead0000 with one register argument and two stack arguments under a
one-register-slot resuming ABI, as the last chain element, lays out as
register-set gadget and value, target, one padding word, then the two
stack arguments. -/
theorem call_padding_when_returns_and_last_witness :
    pass1Call setRegsRdiOne [] 8 0 0 scenarioCall =
      .ok [Slot.gadget popRdiG, Slot.int 1, Slot.int 0xdead0000, Slot.pad,
        Slot.int 0x1111, Slot.int 0x2222] := by
  rw [(call_padding_when_returns_and_last setRegsRdiOne [] 8 0 scenarioCall
    [("rdi", [Slot.gadget popRdiG, Slot.int 1])] rfl).1 rfl]
  rfl

open Binjitsu in
/-- C2 (code bug): the blob branch pads with `len(slot) % context.bytes`
filler bytes instead of the `-len(slot) % context.bytes` needed to reach
the next word boundary.  With word size 4, a 5-byte blob gains one filler
byte, so 6 bytes reach the stack in chunks of 4 and 2 — not the claimed
smallest word multiple of at least the blob length, 8 — leaving the final
chunk narrower than a pointer.  An already-aligned 4-byte blob at stack
offset 8 fares worse: `generatePadding(8, 0)` evaluates
`cyclic(8)[-0:]`, the whole 8-byte cyclic prefix, so 12 bytes reach the
stack instead of 4. -/
theorem blob_padding_bug :
    ((blobSlots 4 0 (List.replicate 5 65)).map slotByteLen).sum = 6
    ∧ (6 : Nat) ≠ 8
    ∧ ((blobSlots 4 8 (List.replicate 4 65)).map slotByteLen).sum = 12
    ∧ (12 : Nat) ≠ 4 := by
  exact ⟨by decide, by decide, by decide, by decide⟩

open Binjitsu in
/-- C6 counterexample: on a 64-bit chain whose gadget set offers a
single-register `pop rbp; ret` and a `leave; ret` gadget — the claim's
base-pointer fallback scenario — migrate emits the literal
`next_base - 4`, not `next_base - align = next_base - 8`, refuting the
claim that the emitted base is adjusted by one architecture word
(`self.align` bytes).  The hand trace also shows the third appended
element: the always-truthy `__getattr__` closure for `leave`, not the
leave gadget present in the set. -/
theorem migrate_fallback_counterexample :
    migrate ⟨[], false, [popRbpG, leaveRetG]⟩ 0x1000 =
      .ok ⟨[.gadget popRbpG, .int 4092, .closure "leave"], true,
        [popRbpG, leaveRetG]⟩
    ∧ (4092 : Int) ≠ 0x1000 - 8 :=
  ⟨rfl, by decide⟩

open Binjitsu in
/-- C6 (amended): when migrate falls back to the base-pointer path —
taken whenever no single-register stack-pointer pop is found but a
single-register base-pointer pop is; `self.leave` is an always-truthy
attribute-dispatch closure, so no leave gadget is required and the
closure itself is appended third — the emitted new base address is
`next_base` adjusted downward by exactly 4 bytes, the hardcoded literal,
one 32-bit word regardless of the architecture's word size; and on every
successful migrate the chain is marked sealed (migrated becomes true). -/
theorem migrate_fallback_emits_minus_four :
    (∀ (st : RopState) (nb : Int) (g : Gadget),
      st.migrated = false →
      popSingle (popSpOf st.gadgets) = none →
      popSingle (popBpOf st.gadgets) = some g →
      migrate st nb =
        .ok ⟨st.chain ++ [.gadget g, .int (nb - 4), .closure "leave"],
          true, st.gadgets⟩)
    ∧ (∀ (st st' : RopState) (nb : Int),
      migrate st nb = .ok st' → st'.migrated = true) := by
  constructor
  · intro st nb g hmig h1 h2
    obtain ⟨chain, mig, gads⟩ := st
    simp only at hmig h1 h2
    subst hmig
    unfold migrate
    rw [h1, h2]
    simp [raw]
  · intro st st' nb h
    unfold migrate at h
    split at h
    · split at h
      · cases h
      · split at h
        · cases h
        · injection h with h
          rw [← h]
    · split at h
      · split at h
        · cases h
        · split at h
          · cases h
          · split at h
            · cases h
            · injection h with h
              rw [← h]
      · cases h

open Binjitsu in
/-- Witness for C6 (amended): the concrete fallback emits 0x2000 - 4,
appends the leave closure, and seals the chain. -/
theorem migrate_fallback_emits_minus_four_witness :
    migrate ⟨[], false, [popRbpG, leaveRetG]⟩ 0x2000 =
      .ok ⟨[.gadget popRbpG, .int 0x1FFC, .closure "leave"], true,
        [popRbpG, leaveRetG]⟩ :=
  migrate_fallback_emits_minus_four.1 ⟨[], false, [popRbpG, leaveRetG]⟩ 0x2000
    popRbpG rfl rfl rfl

open Binjitsu in
/-- C7 counterexample: with a gadget set holding a single-register
`pop rbp; ret` and nothing else — so no stack-pointer pop of any kind
exists and no leave gadget exists, hence no pop-base-pointer-plus-leave
pair — migrate does not raise the unsatisfiable-request error the claim
asserts: `self.leave` resolves to an always-truthy closure, the fallback
fires, three elements are appended and the chain is sealed
(migrated becomes true). -/
theorem migrate_no_pivot_counterexample :
    migrate ⟨[], false, [popRbpG]⟩ 0x1000 =
      .ok ⟨[.gadget popRbpG, .int 4092, .closure "leave"], true, [popRbpG]⟩
    ∧ (∀ g ∈ [popRbpG], "rsp" ∉ g.regs ∧ "esp" ∉ g.regs)
    ∧ (∀ g ∈ [popRbpG], "leave" ∉ g.insns) :=
  ⟨rfl, by decide, by decide⟩

open Binjitsu in
/-- C7 (amended): when no gadget popping a stack-pointer register pops
exactly one register and no gadget popping a base-pointer register pops
exactly one register, migrate raises the unsatisfiable-request error
"Cannot find the gadgets to migrate" before any append, so the chain
element list is unchanged and the chain is not marked sealed (the error
result of the state-passing embedding carries no state).  The presence
or absence of a leave gadget is irrelevant: `self.leave` is an
always-truthy attribute-dispatch closure. -/
theorem migrate_no_pop_gadgets_is_error (st : RopState) (nb : Int)
    (h1 : ∀ g ∈ st.gadgets, ("rsp" ∈ g.regs ∨ "esp" ∈ g.regs) → g.regs.length ≠ 1)
    (h2 : ∀ g ∈ st.gadgets, ("rbp" ∈ g.regs ∨ "ebp" ∈ g.regs) → g.regs.length ≠ 1) :
    migrate st nb = .error "Cannot find the gadgets to migrate" := by
  have hsp : popSingle (popSpOf st.gadgets) = none := by
    cases hr : popSpOf st.gadgets with
    | none => rfl
    | some g =>
        obtain ⟨hmem, hreg⟩ := popSpOf_some hr
        simp only [popSingle]
        rw [if_neg (h1 g hmem hreg)]
  have hbp : popSingle (popBpOf st.gadgets) = none := by
    cases hr : popBpOf st.gadgets with
    | none => rfl
    | some g =>
        obtain ⟨hmem, hreg⟩ := popBpOf_some hr
        simp only [popSingle]
        rw [if_neg (h2 g hmem hreg)]
  unfold migrate
  rw [hsp, hbp]

open Binjitsu in
/-- Witness for C7 (amended): with an empty gadget set, migrate errors
out. -/
theorem migrate_no_pop_gadgets_is_error_witness :
    migrate ⟨[], false, []⟩ 0 = .error "Cannot find the gadgets to migrate" :=
  migrate_no_pop_gadgets_is_error ⟨[], false, []⟩ 0 (by simp) (by simp)

open Binjitsu in
/-- C10: invoking call() on a non-migrated chain with a target resolving
to address 0 (an unknown symbol name, the integer 0, or a symbol whose
value is 0) never appends a Call element with integer target address 0:
the zero address is falsy, so the syscall fallback is attempted; if the
name is not a known syscall the hard "Could not resolve" error is raised
(before any append, so the chain element list is unchanged); and if the
fallback succeeds, the only Call appended targets a syscall gadget drawn
from the gadget set, not the integer 0. -/
theorem call_zero_address_unresolved (arch : Arch) (constants : List (String × Nat))
    (symtabs : List (List (String × Nat))) (defaultAbi : ABIInfo)
    (st : RopState) (res : Resolvable) (args : List Int)
    (hmig : st.migrated = false)
    (hzero : resolvedAddr symtabs res = none ∨ resolvedAddr symtabs res = some 0) :
    (List.lookup ("SYS_" ++ (resolvedName res).toLower) constants = none →
      callM arch constants symtabs defaultAbi st res args =
        .error ("Could not resolve " ++ resolvedName res))
    ∧ (∀ st', callM arch constants symtabs defaultAbi st res args = .ok st' →
        ∃ g n fr, g ∈ st.gadgets ∧
          st'.chain = st.chain ++
            [ChainElem.call ⟨"SYS_sigreturn", .gad g, [CallArg.int n], sigreturnAbi arch⟩,
              ChainElem.frame fr]
          ∧ st'.migrated = true) := by
  have hfall : callM arch constants symtabs defaultAbi st res args =
      (match sropCall arch constants st (resolvedName res) args with
        | .ok none => .error ("Could not resolve " ++ resolvedName res)
        | .ok (some st') => .ok st'
        | .error e => .error e) := by
    unfold callM
    rcases hzero with hz | hz <;> simp [hmig, hz]
  constructor
  · intro hlk
    rw [hfall]
    have hnone : sropCall arch constants st (resolvedName res) args = .ok none := by
      simp only [sropCall, hlk]
    rw [hnone]
  · intro st' hok
    rw [hfall] at hok
    cases hsc : sropCall arch constants st (resolvedName res) args with
    | error e => rw [hsc] at hok; cases hok
    | ok o =>
        cases o with
        | none => rw [hsc] at hok; cases hok
        | some st'' =>
            rw [hsc] at hok
            injection hok with hok
            subst hok
            obtain ⟨g, n, fr, hg, hchain, hm, _⟩ :=
              sropCall_ok_some arch constants st (resolvedName res) args st'' hmig hsc
            exact ⟨g, n, fr, hg, hchain, hm⟩

open Binjitsu in
/-- Witness for C10: calling an unknown name on an empty-symbol, empty
syscall-table environment raises the "Could not resolve" error. -/
theorem call_zero_address_unresolved_witness :
    callM Arch.i386 [] [] ⟨[], true⟩ ⟨[], false, []⟩ (.str "nosuchfn") [] =
      .error "Could not resolve nosuchfn" :=
  (call_zero_address_unresolved Arch.i386 [] [] ⟨[], true⟩ ⟨[], false, []⟩
    (.str "nosuchfn") [] rfl (Or.inl rfl)).1 rfl
